import Mathlib

/-!
Shallow embedding of `src/packages/@kexi/vibe-native/src/clone.c`, the native
copy-on-write clone module of the `kexi/vibe` repository, together with proofs
about its specified behaviour.

Modelling conventions:
* C char buffers and strings are modelled as `List Char` (one `Char` per byte;
  paths are treated as byte strings).
* The Node-API boundary is modelled by `NapiValue` (a JS value is either a
  string or some non-string value) and by `CloneOutcome` (a native call either
  returns `undefined` or throws a JS error value).
* The operating system is modelled by explicit world states (`LinuxWorld`,
  `DarwinWorld`) holding a path-indexed file map plus fault-injection fields
  that decide whether each syscall succeeds or fails with a given errno, so
  that every failure path of the C code is reachable in the model.
* Every syscall performed is recorded in an event trace, so ordering claims
  ("closed before the error is reported", "unlinked before the error") are
  statements about the trace.
-/

/-- One byte of a C char buffer. -/
abbrev Chars := List Char

/-- clone.c:17 `#define PATH_MAX 4096` (the Linux default; the C file supplies
this fallback definition itself). -/
def PATH_MAX : Nat := 4096

/-- clone.c:22 `#define ERROR_MSG_BUFFER_SIZE 256`. -/
def ERROR_MSG_BUFFER_SIZE : Nat := 256

/-- clone.c:23 `#define ARG_ERROR_MSG_SIZE 128`. -/
def ARG_ERROR_MSG_SIZE : Nat := 128

/-- clone.c:24 `#define DEFAULT_FILE_MODE 0644`. -/
def DEFAULT_FILE_MODE : Nat := 0o644

/-- A value arriving over the Node-API call boundary: either a JS string or
some value of any other JS type (number, object, null, ...). -/
inductive NapiValue where
  | str (s : Chars)
  | nonString
deriving DecidableEq

/-- Models `snprintf(buf, size, ...)`: it writes at most `size - 1` characters
and NUL-terminates, so the rendered string is truncated to `size - 1` bytes. -/
def snprintf_trunc (size : Nat) (s : Chars) : Chars :=
  s.take (size - 1)

/-- Modelled from glibc `strerror(3)` (external C library): a human-readable
description for an errno value; unknown values render as `Unknown error N`.
Only the shape matters for the proofs, not the exact table. -/
def strerror (e : Int) : Chars :=
  if e = 1 then "Operation not permitted".toList
  else if e = 2 then "No such file or directory".toList
  else if e = 13 then "Permission denied".toList
  else if e = 17 then "File exists".toList
  else if e = 18 then "Invalid cross-device link".toList
  else if e = 21 then "Is a directory".toList
  else if e = 22 then "Invalid argument".toList
  else if e = 28 then "No space left on device".toList
  else if e = 95 then "Operation not supported".toList
  else "Unknown error ".toList ++ (toString e).toList

/-- A JS error value thrown back across the Node-API boundary.
`typeError` is `napi_throw_type_error`, `plainError` is `napi_throw_error`
(both carry only a message), and `errnoError` is the object built by
`throw_errno_error` (a message plus an `errno` property). -/
inductive Thrown where
  | typeError (message : Chars)
  | plainError (message : Chars)
  | errnoError (message : Chars) (errnoField : Int)
deriving DecidableEq

/-- The full (untruncated) message formatted by clone.c:47
`snprintf(message, sizeof(message), "%s failed: %s (errno %d)", operation, strerror(err), err)`. -/
def errnoMessageFull (operation : Chars) (err : Int) : Chars :=
  operation ++ " failed: ".toList ++ strerror err ++ " (errno ".toList
    ++ (toString err).toList ++ ")".toList

/-- Embeds `throw_errno_error` (clone.c:45-60): formats the message into a
256-byte buffer and builds an error object whose `errno` property is `err`. -/
def throw_errno_error (operation : Chars) (err : Int) : Thrown :=
  .errnoError (snprintf_trunc ERROR_MSG_BUFFER_SIZE (errnoMessageFull operation err)) err

/-- The validation failures `get_string_arg` can throw. `readFailed` is the
clone.c:79 `status != napi_ok` branch of `napi_get_value_string_utf8`. -/
inductive ArgError where
  | notAString (argName : Chars)
  | readFailed (argName : Chars)
  | empty (argName : Chars)
deriving DecidableEq

/-- Result of `get_string_arg`: the validated buffer contents, or the thrown
validation error. -/
inductive ArgResult where
  | ok (path : Chars)
  | err (e : ArgError)
deriving DecidableEq

/-- Embeds `get_string_arg` (clone.c:66-95). `napi_get_value_string_utf8`
copies at most `buffer_size - 1` bytes into the buffer, NUL-terminates, and
reports `napi_ok` even when the source string was longer (Node-API documented
truncation semantics), so for a string-typed value the clone.c:79 status check
never fires and an over-long path is silently truncated rather than rejected. -/
def get_string_arg (value : NapiValue) (buffer_size : Nat) (arg_name : Chars) : ArgResult :=
  match value with
  | .nonString => .err (.notAString arg_name)
  | .str s =>
      let copied := s.take (buffer_size - 1)
      if copied.length = 0 then .err (.empty arg_name) else .ok copied

/-- The `arg_name` string passed for the first argument (clone.c:119/180). -/
def srcArgName : Chars := "src".toList

/-- The `arg_name` string passed for the second argument (clone.c:124/185). -/
def destArgName : Chars := "dest".toList

/-- The message of each validation error, as formatted by the
`ARG_ERROR_MSG_SIZE` snprintf calls in `get_string_arg`. -/
def argErrorThrown : ArgError → Thrown
  | .notAString n => .typeError (snprintf_trunc ARG_ERROR_MSG_SIZE (n ++ " must be a string".toList))
  | .readFailed n =>
      .plainError (snprintf_trunc ARG_ERROR_MSG_SIZE ("Failed to read ".toList ++ n ++ " string".toList))
  | .empty n => .plainError (snprintf_trunc ARG_ERROR_MSG_SIZE (n ++ " cannot be empty".toList))

/-- Whether a thrown value is a validation error (carries no errno property),
as opposed to an errno-translated syscall error. -/
def isValidationThrow : Thrown → Bool
  | .typeError _ => true
  | .plainError _ => true
  | .errnoError _ _ => false

/-- What a native call returns to JS: `undefined` on success, or a thrown
error value. -/
inductive CloneOutcome where
  | success
  | thrown (t : Thrown)
deriving DecidableEq

/-- The compile-time target the C file was built for (`__DARWIN__`,
`__LINUX__`, or neither). -/
inductive Platform where
  | darwin
  | linux
  | other
deriving DecidableEq

/-- Embeds `get_platform` (clone.c:244-254): the platform name string fixed by
the compile-time target. -/
def get_platform : Platform → String
  | .darwin => "darwin"
  | .linux => "linux"
  | .other => "unknown"

/-- Embeds `darwin_is_available` (clone.c:142-146); the argument models the
ignored `napi_callback_info` of a particular call. -/
def darwin_is_available (_call : Nat) : Bool := true

/-- Embeds `darwin_supports_directory` (clone.c:151-155). -/
def darwin_supports_directory (_call : Nat) : Bool := true

/-- Embeds `linux_is_available` (clone.c:225-229). -/
def linux_is_available (_call : Nat) : Bool := true

/-- Embeds `linux_supports_directory` (clone.c:234-238). -/
def linux_supports_directory (_call : Nat) : Bool := false

/-- The native callback functions that `Init` can install on the exports
object. -/
inductive FnId where
  | getPlatformFn
  | darwinClonefileFn
  | darwinIsAvailableFn
  | darwinSupportsDirectoryFn
  | linuxFicluneFn
  | linuxIsAvailableFn
  | linuxSupportsDirectoryFn
deriving DecidableEq

/-- A property value installed on the exports object: a native function or a
plain boolean constant. -/
inductive ExportValue where
  | fn (f : FnId)
  | boolConst (b : Bool)
deriving DecidableEq

/-- Embeds `Init` (clone.c:259-286): the exports object built at module load,
as an association list from property name to installed value. On darwin and
linux, `getPlatform`, `clone`, `isAvailable` and `supportsDirectory` are all
native functions; on any other platform only `getPlatform` (a function) and
`isAvailable` (the plain boolean `false`, clone.c:275-277) are installed and
`Init` returns early. -/
def ModuleInit : Platform → List (String × ExportValue)
  | .darwin =>
      [("getPlatform", .fn .getPlatformFn),
       ("clone", .fn .darwinClonefileFn),
       ("isAvailable", .fn .darwinIsAvailableFn),
       ("supportsDirectory", .fn .darwinSupportsDirectoryFn)]
  | .linux =>
      [("getPlatform", .fn .getPlatformFn),
       ("clone", .fn .linuxFicluneFn),
       ("isAvailable", .fn .linuxIsAvailableFn),
       ("supportsDirectory", .fn .linuxSupportsDirectoryFn)]
  | .other =>
      [("getPlatform", .fn .getPlatformFn),
       ("isAvailable", .boolConst false)]

/-- Whether an exports lookup produced a native function. -/
def isFnExport : Option ExportValue → Bool
  | some (.fn _) => true
  | _ => false

/-- A syscall performed by a clone call, in program order. -/
inductive Event where
  | openRead (path : Chars)
  | openWrite (path : Chars) (creat trunc : Bool) (mode : Nat)
  | ioctlFiclone (destFd srcFd : Nat)
  | closeFd (fd : Nat)
  | unlinkPath (path : Chars)
  | clonefileCall (src dst : Chars)
deriving DecidableEq

/-- errno 2. -/
def ENOENT : Int := 2

/-- errno 17. -/
def EEXIST : Int := 17

/-- A path-indexed file map: association list from path to file contents. -/
abbrev FileMap := List (Chars × Chars)

/-- Replace (or create) the file at `p` with contents `v`. -/
def fsSet (fs : FileMap) (p v : Chars) : FileMap :=
  (p, v) :: fs.filter (fun kv => !(kv.1 == p))

/-- Remove the file at `p`. -/
def fsRemove (fs : FileMap) (p : Chars) : FileMap :=
  fs.filter (fun kv => !(kv.1 == p))

/-- The Linux kernel state visible to `linux_ficlone`, with fault-injection
fields making the failure modes of each syscall reachable: a `some e` field forces
the corresponding syscall to fail with errno `e`. `errno` is the errno cell of the calling thread; `openFds` the set of open descriptors; `nextFd` the next
descriptor the kernel will hand out. -/
structure LinuxWorld where
  fs : FileMap
  openSrcErr : Option Int
  openDestErr : Option Int
  ioctlErr : Option Int
  closeSrcErrno : Option Int
  closeDestErrno : Option Int
  unlinkErr : Option Int
  errno : Int
  nextFd : Nat
  openFds : List Nat
deriving DecidableEq

/-- The syscall `open(src, O_RDONLY)` as seen by clone.c:190: fails with the injected
errno, or with ENOENT when the file is absent; otherwise allocates a fresh
descriptor. -/
def sys_open_read (w : LinuxWorld) (p : Chars) : Option Nat × LinuxWorld :=
  match w.openSrcErr with
  | some e => (none, { w with errno := e })
  | none =>
      match w.fs.lookup p with
      | none => (none, { w with errno := ENOENT })
      | some _ =>
          (some w.nextFd,
           { w with nextFd := w.nextFd + 1, openFds := w.nextFd :: w.openFds })

/-- The syscall `open(dest, O_WRONLY | O_CREAT | O_TRUNC, 0644)` as seen by clone.c:196:
fails with the injected errno; otherwise creates the file (truncating any
existing contents to empty) and allocates a fresh descriptor. -/
def sys_open_dest (w : LinuxWorld) (p : Chars) : Option Nat × LinuxWorld :=
  match w.openDestErr with
  | some e => (none, { w with errno := e })
  | none =>
      (some w.nextFd,
       { w with fs := fsSet w.fs p [],
                nextFd := w.nextFd + 1, openFds := w.nextFd :: w.openFds })

/-- The syscall `ioctl(dest_fd, FICLONE, src_fd)` as seen by clone.c:204: fails with the
injected errno, or clones the source contents into the destination. -/
def sys_ioctl_ficlone (w : LinuxWorld) (src dest : Chars) : Int × LinuxWorld :=
  match w.ioctlErr with
  | some e => (-1, { w with errno := e })
  | none => (0, { w with fs := fsSet w.fs dest ((w.fs.lookup src).getD []) })

/-- The syscall `close(fd)`: always releases the descriptor; when the injected errno is
present the call additionally fails and clobbers the errno cell (the C code
ignores close return values, but a failing close overwrites errno). -/
def sys_close (w : LinuxWorld) (fd : Nat) (injected : Option Int) : LinuxWorld :=
  match injected with
  | some e => { w with openFds := w.openFds.erase fd, errno := e }
  | none => { w with openFds := w.openFds.erase fd }

/-- The syscall `unlink(dest)` as seen by clone.c:212: fails with the injected errno
(leaving the file in place), or removes the file. -/
def sys_unlink (w : LinuxWorld) (p : Chars) : LinuxWorld :=
  match w.unlinkErr with
  | some e => { w with errno := e }
  | none => { w with fs := fsRemove w.fs p }

/-- Outcome of one `linux_ficlone` call: returned value, final kernel state,
and the trace of syscalls performed, in order. -/
structure LinuxCallResult where
  ret : CloneOutcome
  world : LinuxWorld
  events : List Event
deriving DecidableEq

/-- Embeds `linux_ficlone` (clone.c:165-219): validate both arguments, open
the source read-only, create/truncate the destination, issue FICLONE, save
errno, close both descriptors unconditionally, and on ioctl failure unlink the
destination before throwing the saved errno. -/
def linux_ficlone (srcArg destArg : NapiValue) (w : LinuxWorld) : LinuxCallResult :=
  match get_string_arg srcArg PATH_MAX srcArgName with
  | .err e => ⟨.thrown (argErrorThrown e), w, []⟩
  | .ok src =>
  match get_string_arg destArg PATH_MAX destArgName with
  | .err e => ⟨.thrown (argErrorThrown e), w, []⟩
  | .ok dest =>
    match sys_open_read w src with
    | (none, w1) =>
        ⟨.thrown (throw_errno_error "open source".toList w1.errno), w1, [.openRead src]⟩
    | (some srcFd, w1) =>
      match sys_open_dest w1 dest with
      | (none, w2) =>
          let saved_errno := w2.errno
          let w3 := sys_close w2 srcFd w2.closeSrcErrno
          ⟨.thrown (throw_errno_error "open dest".toList saved_errno), w3,
           [.openRead src, .openWrite dest true true DEFAULT_FILE_MODE, .closeFd srcFd]⟩
      | (some destFd, w2) =>
          let r := sys_ioctl_ficlone w2 src dest
          let result := r.1
          let w3 := r.2
          let saved_errno := w3.errno
          let w4 := sys_close w3 srcFd w3.closeSrcErrno
          let w5 := sys_close w4 destFd w4.closeDestErrno
          if result ≠ 0 then
            let w6 := sys_unlink w5 dest
            ⟨.thrown (throw_errno_error "ioctl FICLONE".toList saved_errno), w6,
             [.openRead src, .openWrite dest true true DEFAULT_FILE_MODE,
              .ioctlFiclone destFd srcFd, .closeFd srcFd, .closeFd destFd, .unlinkPath dest]⟩
          else
            ⟨.success, w5,
             [.openRead src, .openWrite dest true true DEFAULT_FILE_MODE,
              .ioctlFiclone destFd srcFd, .closeFd srcFd, .closeFd destFd]⟩

/-- The macOS kernel state visible to `darwin_clonefile`: the file map, the
errno cell, and a fault-injection field for clone failures other than the
destination already existing or the source being absent. -/
structure DarwinWorld where
  fs : FileMap
  cloneErr : Option Int
  errno : Int
deriving DecidableEq

/-- Modelled from the macOS `clonefile(2)` contract as the spec describes it
(external kernel primitive, not repository code): the clone is atomic, fails
with EEXIST when the destination already exists and with ENOENT when the
source is absent, and performs no partial work on any failure. -/
def sys_clonefile (w : DarwinWorld) (src dst : Chars) : Int × DarwinWorld :=
  if (w.fs.lookup dst).isSome then (-1, { w with errno := EEXIST })
  else
    match w.fs.lookup src with
    | none => (-1, { w with errno := ENOENT })
    | some content =>
        match w.cloneErr with
        | some e => (-1, { w with errno := e })
        | none => (0, { w with fs := fsSet w.fs dst content })

/-- Outcome of one `darwin_clonefile` call. -/
structure DarwinCallResult where
  ret : CloneOutcome
  world : DarwinWorld
  events : List Event
deriving DecidableEq

/-- Embeds `darwin_clonefile` (clone.c:104-137): validate both arguments, then
a single `clonefile(src, dest, 0)` call, translating its errno with label
`clonefile` on failure. -/
def darwin_clonefile (srcArg destArg : NapiValue) (w : DarwinWorld) : DarwinCallResult :=
  match get_string_arg srcArg PATH_MAX srcArgName with
  | .err e => ⟨.thrown (argErrorThrown e), w, []⟩
  | .ok src =>
  match get_string_arg destArg PATH_MAX destArgName with
  | .err e => ⟨.thrown (argErrorThrown e), w, []⟩
  | .ok dest =>
    let r := sys_clonefile w src dest
    if r.1 ≠ 0 then
      ⟨.thrown (throw_errno_error "clonefile".toList r.2.errno), r.2, [.clonefileCall src dest]⟩
    else
      ⟨.success, r.2, [.clonefileCall src dest]⟩

/-- Whether both arguments pass `get_string_arg` validation. -/
def cloneArgsValid (srcArg destArg : NapiValue) : Bool :=
  (match get_string_arg srcArg PATH_MAX srcArgName with
   | .ok _ => true
   | .err _ => false) &&
  (match get_string_arg destArg PATH_MAX destArgName with
   | .ok _ => true
   | .err _ => false)

/-- A kernel state with an empty file map and no injected faults, used as a
concrete input by the witness theorems. -/
def plainLinuxWorld : LinuxWorld :=
  { fs := [], openSrcErr := none, openDestErr := none, ioctlErr := none,
    closeSrcErrno := none, closeDestErrno := none, unlinkErr := none,
    errno := 0, nextFd := 3, openFds := [] }

/-- A macOS kernel state with an empty file map and no injected fault. -/
def plainDarwinWorld : DarwinWorld := { fs := [], cloneErr := none, errno := 0 }

/-- Concrete source path used by the witness theorems. -/
def srcPathW : Chars := "/s".toList

/-- Concrete destination path used by the witness theorems. -/
def destPathW : Chars := "/d".toList

/-- Witness world: the source open fails with an injected EACCES. -/
def w8a : LinuxWorld := { plainLinuxWorld with openSrcErr := some 13 }

/-- Witness world: the destination open fails with an injected ENOSPC while a
close failure stands by to clobber errno. -/
def w8b : LinuxWorld :=
  { plainLinuxWorld with
      fs := [(srcPathW, "data".toList)]
      openDestErr := some 28
      closeSrcErrno := some 9 }

/-- Witness world: source and destination exist, the ioctl fails with EOPNOTSUPP,
and both closes fail with EBADF so they would clobber errno if it were read
after them. -/
def ioctlFailWorld : LinuxWorld :=
  { plainLinuxWorld with
      fs := [(srcPathW, "data".toList), (destPathW, "old".toList)]
      ioctlErr := some 95
      closeSrcErrno := some 9
      closeDestErrno := some 9 }

/-- Witness world for the macOS variant: both paths already exist. -/
def preexistDarwinWorld : DarwinWorld :=
  { fs := [(srcPathW, "data".toList), (destPathW, "old".toList)]
    cloneErr := none
    errno := 0 }

-- Helper lemmas shared by several claims

theorem lookup_fsRemove (fs : FileMap) (p : Chars) : (fsRemove fs p).lookup p = none := by
  induction fs with
  | nil => rfl
  | cons kv t ih =>
      by_cases h : kv.1 = p
      · simpa [fsRemove, List.filter, h] using ih
      · have hb : (kv.1 == p) = false := by simpa using h
        have hb2 : (p == kv.1) = false := by
          simp only [beq_eq_false_iff_ne]
          exact fun hpk => h hpk.symm
        simpa [fsRemove, List.filter, hb, List.lookup, hb2] using ih

theorem sys_open_read_fs (w : LinuxWorld) (p : Chars) : (sys_open_read w p).2.fs = w.fs := by
  unfold sys_open_read
  cases w.openSrcErr with
  | some e => rfl
  | none => cases w.fs.lookup p with
    | none => rfl
    | some c => rfl

theorem sys_open_read_success (w : LinuxWorld) (p c : Chars)
    (h1 : w.openSrcErr = none) (h2 : w.fs.lookup p = some c) :
    sys_open_read w p =
      (some w.nextFd,
       { w with nextFd := w.nextFd + 1, openFds := w.nextFd :: w.openFds }) := by
  simp [sys_open_read, h1, h2]

theorem sys_open_dest_success (w : LinuxWorld) (p : Chars) (h3 : w.openDestErr = none) :
    sys_open_dest w p =
      (some w.nextFd,
       { w with fs := fsSet w.fs p [],
                nextFd := w.nextFd + 1, openFds := w.nextFd :: w.openFds }) := by
  simp [sys_open_dest, h3]

/-- C6: the capability queries are compile-time constants: available on darwin
and linux, directory cloning supported only on darwin, and every call returns
the same value as every other call. -/
theorem capability_queries_constant :
    (∀ i, darwin_is_available i = true) ∧
    (∀ i, linux_is_available i = true) ∧
    (∀ i, darwin_supports_directory i = true) ∧
    (∀ i, linux_supports_directory i = false) ∧
    (∀ i j, darwin_is_available i = darwin_is_available j) ∧
    (∀ i j, linux_is_available i = linux_is_available j) ∧
    (∀ i j, darwin_supports_directory i = darwin_supports_directory j) ∧
    (∀ i j, linux_supports_directory i = linux_supports_directory j) :=
  ⟨fun _ => rfl, fun _ => rfl, fun _ => rfl, fun _ => rfl,
   fun _ _ => rfl, fun _ _ => rfl, fun _ _ => rfl, fun _ _ => rfl⟩

/-- C4 counterexample: on a build that is neither darwin nor linux,
`get_platform` returns the string `unknown`, not `unsupported` as the claim
states. -/
theorem get_platform_other_is_unknown :
    get_platform .other = "unknown" ∧ get_platform .other ≠ "unsupported" := by
  constructor
  · rfl
  · decide

/-- C4 amended: `get_platform` returns exactly one of `darwin`, `linux`,
`unknown`, determined by the compiled target. -/
theorem get_platform_values :
    get_platform .darwin = "darwin" ∧ get_platform .linux = "linux" ∧
    get_platform .other = "unknown" ∧
    ∀ p, get_platform p = "darwin" ∨ get_platform p = "linux" ∨
      get_platform p = "unknown" := by
  refine ⟨rfl, rfl, rfl, fun p => ?_⟩
  cases p
  · exact Or.inl rfl
  · exact Or.inr (Or.inl rfl)
  · exact Or.inr (Or.inr rfl)

/-- C3 counterexample: on an unsupported platform the exports object maps
`isAvailable` to the plain boolean value `false`, not to a callable native
function. -/
theorem unsupported_isAvailable_is_plain_boolean :
    (ModuleInit .other).lookup "isAvailable" = some (.boolConst false) ∧
    isFnExport ((ModuleInit .other).lookup "isAvailable") = false := by
  decide

/-- C3 amended: on an unsupported platform, `isAvailable` is exposed as the
plain boolean value `false` (not a callable), `clone` and `supportsDirectory`
are not exposed at all, and `getPlatform` is still a native function. -/
theorem unsupported_exports_shape :
    (ModuleInit .other).lookup "isAvailable" = some (.boolConst false) ∧
    (ModuleInit .other).lookup "clone" = none ∧
    (ModuleInit .other).lookup "supportsDirectory" = none ∧
    (ModuleInit .other).lookup "getPlatform" = some (.fn .getPlatformFn) := by
  decide

/-- C2: a path whose encoded length equals the `PATH_MAX` capacity is not
rejected by `get_string_arg`: `napi_get_value_string_utf8` silently truncates
it to `PATH_MAX - 1` bytes and validation succeeds, contradicting the specified
no-truncation invariant. -/
theorem too_long_path_is_truncated_not_rejected :
    (List.replicate PATH_MAX 'a').length = PATH_MAX ∧
    get_string_arg (.str (List.replicate PATH_MAX 'a')) PATH_MAX "src".toList =
      .ok (List.replicate (PATH_MAX - 1) 'a') := by
  constructor
  · simp
  · have hmin : min (PATH_MAX - 1) PATH_MAX = PATH_MAX - 1 :=
      Nat.min_eq_left (Nat.sub_le _ _)
    have ht : (List.replicate PATH_MAX 'a').take (PATH_MAX - 1) =
        List.replicate (PATH_MAX - 1) 'a' := by
      rw [List.take_replicate, hmin]
    have hne : ¬ ((List.replicate (PATH_MAX - 1) 'a').length = 0) := by
      simp only [List.length_replicate]
      decide
    simp only [get_string_arg, ht]
    rw [if_neg hne]

/-- C5: for every operation label and errno value whose rendered message fits
the 256-byte buffer, `throw_errno_error` throws an error whose message is
exactly `<operation> failed: <strerror text> (errno <code>)`, whose `errno`
field is the code, and whose message contains the label and the decimal
rendering of the code. -/
theorem throw_errno_error_message_shape (operation : Chars) (err : Int)
    (hfit : (errnoMessageFull operation err).length ≤ ERROR_MSG_BUFFER_SIZE - 1) :
    throw_errno_error operation err =
      .errnoError (errnoMessageFull operation err) err ∧
    (∃ rest, errnoMessageFull operation err = operation ++ rest) ∧
    (∃ pre post, errnoMessageFull operation err =
      pre ++ (toString err).toList ++ post) := by
  refine ⟨?_, ?_, ?_⟩
  · unfold throw_errno_error snprintf_trunc
    rw [List.take_of_length_le hfit]
  · exact ⟨" failed: ".toList ++ strerror err ++ " (errno ".toList ++
      (toString err).toList ++ ")".toList, by simp [errnoMessageFull]⟩
  · exact ⟨operation ++ " failed: ".toList ++ strerror err ++ " (errno ".toList,
      ")".toList, by simp [errnoMessageFull]⟩

/-- C5 witness at the concrete label `ioctl FICLONE` and errno 95. -/
theorem throw_errno_error_message_shape_witness :
    ((errnoMessageFull "ioctl FICLONE".toList 95).length ≤ ERROR_MSG_BUFFER_SIZE - 1) ∧
    (throw_errno_error "ioctl FICLONE".toList 95 =
      .errnoError (errnoMessageFull "ioctl FICLONE".toList 95) 95 ∧
    (∃ rest, errnoMessageFull "ioctl FICLONE".toList 95 = "ioctl FICLONE".toList ++ rest) ∧
    (∃ pre post, errnoMessageFull "ioctl FICLONE".toList 95 =
      pre ++ (toString (95 : Int)).toList ++ post)) :=
  ⟨by decide, throw_errno_error_message_shape "ioctl FICLONE".toList 95 (by decide)⟩

theorem sys_close_openFds (w : LinuxWorld) (fd : Nat) (inj : Option Int) :
    (sys_close w fd inj).openFds = w.openFds.erase fd := by
  cases inj <;> rfl

theorem sys_unlink_openFds (w : LinuxWorld) (p : Chars) :
    (sys_unlink w p).openFds = w.openFds := by
  cases h : w.unlinkErr <;> simp [sys_unlink, h]

theorem sys_ioctl_openFds (w : LinuxWorld) (s d : Chars) :
    (sys_ioctl_ficlone w s d).2.openFds = w.openFds := by
  cases h : w.ioctlErr <;> simp [sys_ioctl_ficlone, h]

theorem erase_two_fds (n : Nat) : (([n + 1, n].erase n).erase (n + 1)) = [] := by
  have h1 : ((n + 1) == n) = false := by simp
  have h2 : (n == n) = true := by simp
  simp [List.erase_cons, h1, h2]

/-- C7: whenever either path argument fails validation (non-string or empty),
both clone variants throw a validation error with no syscall executed: the
kernel state is unchanged and the syscall trace is empty. -/
theorem validation_failure_no_syscalls (srcArg destArg : NapiValue)
    (w : LinuxWorld) (dw : DarwinWorld)
    (h : cloneArgsValid srcArg destArg = false) :
    ((linux_ficlone srcArg destArg w).world = w ∧
     (linux_ficlone srcArg destArg w).events = [] ∧
     ∃ t, (linux_ficlone srcArg destArg w).ret = .thrown t ∧ isValidationThrow t = true) ∧
    ((darwin_clonefile srcArg destArg dw).world = dw ∧
     (darwin_clonefile srcArg destArg dw).events = [] ∧
     ∃ t, (darwin_clonefile srcArg destArg dw).ret = .thrown t ∧
       isValidationThrow t = true) := by
  have hval : ∀ e : ArgError, isValidationThrow (argErrorThrown e) = true := by
    intro e
    cases e <;> rfl
  cases hs : get_string_arg srcArg PATH_MAX srcArgName with
  | err e =>
      refine ⟨⟨?_, ?_, ⟨argErrorThrown e, ?_, hval e⟩⟩,
              ⟨?_, ?_, ⟨argErrorThrown e, ?_, hval e⟩⟩⟩ <;>
        simp [linux_ficlone, darwin_clonefile, hs]
  | ok s =>
      cases hd : get_string_arg destArg PATH_MAX destArgName with
      | err e =>
          refine ⟨⟨?_, ?_, ⟨argErrorThrown e, ?_, hval e⟩⟩,
                  ⟨?_, ?_, ⟨argErrorThrown e, ?_, hval e⟩⟩⟩ <;>
            simp [linux_ficlone, darwin_clonefile, hs, hd]
      | ok d =>
          exfalso
          simp [cloneArgsValid, hs, hd] at h

/-- C7 witness: a non-string source argument is rejected with both worlds
untouched. -/
theorem validation_failure_no_syscalls_witness :
    cloneArgsValid .nonString (.str "/d".toList) = false ∧
    (((linux_ficlone .nonString (.str "/d".toList) plainLinuxWorld).world = plainLinuxWorld ∧
      (linux_ficlone .nonString (.str "/d".toList) plainLinuxWorld).events = [] ∧
      ∃ t, (linux_ficlone .nonString (.str "/d".toList) plainLinuxWorld).ret = .thrown t ∧
        isValidationThrow t = true) ∧
     ((darwin_clonefile .nonString (.str "/d".toList) plainDarwinWorld).world = plainDarwinWorld ∧
      (darwin_clonefile .nonString (.str "/d".toList) plainDarwinWorld).events = [] ∧
      ∃ t, (darwin_clonefile .nonString (.str "/d".toList) plainDarwinWorld).ret = .thrown t ∧
        isValidationThrow t = true)) :=
  ⟨by decide,
   validation_failure_no_syscalls .nonString (.str "/d".toList)
     plainLinuxWorld plainDarwinWorld (by decide)⟩

theorem sys_close_unlinkErr (w : LinuxWorld) (fd : Nat) (inj : Option Int) :
    (sys_close w fd inj).unlinkErr = w.unlinkErr := by
  cases inj <;> rfl

theorem sys_unlink_lookup_none (w : LinuxWorld) (p : Chars) (h : w.unlinkErr = none) :
    (sys_unlink w p).fs.lookup p = none := by
  simp [sys_unlink, h, lookup_fsRemove]

/-- C8: the Linux clone follows the specified step order: a failed source open
throws with label `open source` having performed only that open; a failed
destination open closes the source descriptor before throwing label
`open dest` with the errno saved before the close; a failed ioctl throws label
`ioctl FICLONE` with the errno captured at the ioctl, immune to errno
clobbering by the later close calls. -/
theorem ficlone_step_order :
    (∀ (srcArg destArg : NapiValue) (s d : Chars) (w : LinuxWorld),
      get_string_arg srcArg PATH_MAX srcArgName = .ok s →
      get_string_arg destArg PATH_MAX destArgName = .ok d →
      (sys_open_read w s).1 = none →
      linux_ficlone srcArg destArg w =
        ⟨.thrown (throw_errno_error "open source".toList (sys_open_read w s).2.errno),
         (sys_open_read w s).2, [.openRead s]⟩ ∧
      (sys_open_read w s).2.fs = w.fs) ∧
    (∀ (srcArg destArg : NapiValue) (s d c : Chars) (w : LinuxWorld) (e : Int),
      get_string_arg srcArg PATH_MAX srcArgName = .ok s →
      get_string_arg destArg PATH_MAX destArgName = .ok d →
      w.openSrcErr = none → w.fs.lookup s = some c → w.openDestErr = some e →
      (linux_ficlone srcArg destArg w).ret =
        .thrown (throw_errno_error "open dest".toList e) ∧
      (linux_ficlone srcArg destArg w).events =
        [.openRead s, .openWrite d true true DEFAULT_FILE_MODE, .closeFd w.nextFd]) ∧
    (∀ (srcArg destArg : NapiValue) (s d c : Chars) (w : LinuxWorld) (e : Int),
      get_string_arg srcArg PATH_MAX srcArgName = .ok s →
      get_string_arg destArg PATH_MAX destArgName = .ok d →
      w.openSrcErr = none → w.fs.lookup s = some c → w.openDestErr = none →
      w.ioctlErr = some e →
      (linux_ficlone srcArg destArg w).ret =
        .thrown (throw_errno_error "ioctl FICLONE".toList e)) := by
  refine ⟨?_, ?_, ?_⟩
  · intro srcArg destArg s d w hs hd h
    refine ⟨?_, sys_open_read_fs w s⟩
    rcases hsr : sys_open_read w s with ⟨fd, w1⟩
    rw [hsr] at h
    have hfd : fd = none := h
    subst hfd
    simp only [linux_ficlone, hs, hd, hsr]
  · intro srcArg destArg s d c w e hs hd h1 h2 h3
    have hro := sys_open_read_success w s c h1 h2
    constructor <;> simp [linux_ficlone, hs, hd, hro, sys_open_dest, h3]
  · intro srcArg destArg s d c w e hs hd h1 h2 h3 h4
    have hro := sys_open_read_success w s c h1 h2
    simp [linux_ficlone, hs, hd, hro, sys_open_dest, h3, sys_ioctl_ficlone, h4]

/-- C9: every descriptor opened during a Linux clone call is closed again
before the call returns, on every exit path: a call entered with no open
descriptors finishes with no open descriptors. -/
theorem ficlone_closes_all_fds (srcArg destArg : NapiValue) (w : LinuxWorld)
    (h : w.openFds = []) :
    (linux_ficlone srcArg destArg w).world.openFds = [] := by
  cases hs : get_string_arg srcArg PATH_MAX srcArgName with
  | err e => simp [linux_ficlone, hs, h]
  | ok s =>
  cases hd : get_string_arg destArg PATH_MAX destArgName with
  | err e => simp [linux_ficlone, hs, hd, h]
  | ok d =>
  cases h1 : w.openSrcErr with
  | some e1 => simp [linux_ficlone, hs, hd, sys_open_read, h1, h]
  | none =>
  cases h2 : w.fs.lookup s with
  | none => simp [linux_ficlone, hs, hd, sys_open_read, h1, h2, h]
  | some c =>
  have hro := sys_open_read_success w s c h1 h2
  cases h3 : w.openDestErr with
  | some e3 =>
      simp [linux_ficlone, hs, hd, hro, sys_open_dest, h3, sys_close_openFds, h]
  | none =>
      cases h4 : w.ioctlErr with
      | some e4 =>
          simp [linux_ficlone, hs, hd, hro, sys_open_dest, h3, sys_ioctl_ficlone, h4,
                sys_close_openFds, sys_unlink_openFds, h, erase_two_fds]
      | none =>
          simp [linux_ficlone, hs, hd, hro, sys_open_dest, h3, sys_ioctl_ficlone, h4,
                sys_close_openFds, h, erase_two_fds]

/-- C1: on the Linux variant, when both opens succeed and the FICLONE ioctl
fails, the destination is unlinked before the error is reported: the syscall
trace ends with the unlink, the thrown error is the translated ioctl errno,
and the destination is absent from the final file map. -/
theorem ficlone_failure_unlinks_dest (srcArg destArg : NapiValue)
    (s d c : Chars) (w : LinuxWorld) (e : Int)
    (hs : get_string_arg srcArg PATH_MAX srcArgName = .ok s)
    (hd : get_string_arg destArg PATH_MAX destArgName = .ok d)
    (h1 : w.openSrcErr = none) (h2 : w.fs.lookup s = some c)
    (h3 : w.openDestErr = none) (h4 : w.ioctlErr = some e)
    (h5 : w.unlinkErr = none) :
    (linux_ficlone srcArg destArg w).ret =
      .thrown (throw_errno_error "ioctl FICLONE".toList e) ∧
    (linux_ficlone srcArg destArg w).events =
      [.openRead s, .openWrite d true true DEFAULT_FILE_MODE,
       .ioctlFiclone (w.nextFd + 1) w.nextFd, .closeFd w.nextFd,
       .closeFd (w.nextFd + 1), .unlinkPath d] ∧
    (linux_ficlone srcArg destArg w).world.fs.lookup d = none := by
  have hro := sys_open_read_success w s c h1 h2
  refine ⟨?_, ?_, ?_⟩ <;>
    simp [linux_ficlone, hs, hd, hro, sys_open_dest, h3, sys_ioctl_ficlone, h4,
          sys_unlink_lookup_none, sys_close_unlinkErr, h5]

/-- C10: a failed clone onto a pre-existing destination differs per platform:
the Linux variant opens the destination with O_TRUNC and unlinks it after the
failed ioctl, leaving it absent with its prior contents destroyed, while the
macOS clonefile primitive fails with EEXIST leaving the file map, and the
destination contents, untouched. -/
theorem preexisting_dest_failure_platforms :
    (∀ (srcArg destArg : NapiValue) (s d c c0 : Chars) (w : LinuxWorld) (e : Int),
      get_string_arg srcArg PATH_MAX srcArgName = .ok s →
      get_string_arg destArg PATH_MAX destArgName = .ok d →
      w.fs.lookup d = some c0 →
      w.openSrcErr = none → w.fs.lookup s = some c →
      w.openDestErr = none → w.ioctlErr = some e → w.unlinkErr = none →
      Event.openWrite d true true DEFAULT_FILE_MODE ∈ (linux_ficlone srcArg destArg w).events ∧
      (linux_ficlone srcArg destArg w).world.fs.lookup d = none) ∧
    (∀ (srcArg destArg : NapiValue) (s d c c0 : Chars) (dw : DarwinWorld),
      get_string_arg srcArg PATH_MAX srcArgName = .ok s →
      get_string_arg destArg PATH_MAX destArgName = .ok d →
      dw.fs.lookup s = some c →
      dw.fs.lookup d = some c0 →
      (darwin_clonefile srcArg destArg dw).ret =
        .thrown (throw_errno_error "clonefile".toList EEXIST) ∧
      (darwin_clonefile srcArg destArg dw).world.fs = dw.fs ∧
      (darwin_clonefile srcArg destArg dw).world.fs.lookup d = some c0) := by
  constructor
  · intro srcArg destArg s d c c0 w e hs hd hpre h1 h2 h3 h4 h5
    have hro := sys_open_read_success w s c h1 h2
    constructor <;>
      simp [linux_ficlone, hs, hd, hro, sys_open_dest, h3, sys_ioctl_ficlone, h4,
            sys_unlink_lookup_none, sys_close_unlinkErr, h5]
  · intro srcArg destArg s d c c0 dw hs hd hsrc hpre
    refine ⟨?_, ?_, ?_⟩ <;> simp [darwin_clonefile, sys_clonefile, hs, hd, hsrc, hpre]


/-- C8 witness: the three step-order facts at concrete worlds. -/
theorem ficlone_step_order_witness :
    ((sys_open_read w8a srcPathW).1 = none ∧
     linux_ficlone (.str srcPathW) (.str destPathW) w8a =
       ⟨.thrown (throw_errno_error "open source".toList (sys_open_read w8a srcPathW).2.errno),
        (sys_open_read w8a srcPathW).2, [.openRead srcPathW]⟩ ∧
     (sys_open_read w8a srcPathW).2.fs = w8a.fs) ∧
    (w8b.openDestErr = some 28 ∧
     (linux_ficlone (.str srcPathW) (.str destPathW) w8b).ret =
       .thrown (throw_errno_error "open dest".toList 28) ∧
     (linux_ficlone (.str srcPathW) (.str destPathW) w8b).events =
       [.openRead srcPathW, .openWrite destPathW true true DEFAULT_FILE_MODE,
        .closeFd w8b.nextFd]) ∧
    (ioctlFailWorld.ioctlErr = some 95 ∧
     (linux_ficlone (.str srcPathW) (.str destPathW) ioctlFailWorld).ret =
       .thrown (throw_errno_error "ioctl FICLONE".toList 95)) := by
  have h1 := ficlone_step_order.1 (.str srcPathW) (.str destPathW) srcPathW destPathW w8a
    (by decide) (by decide) (by decide)
  have h2 := ficlone_step_order.2.1 (.str srcPathW) (.str destPathW) srcPathW destPathW
    "data".toList w8b 28 (by decide) (by decide) (by decide) (by decide) (by decide)
  have h3 := ficlone_step_order.2.2 (.str srcPathW) (.str destPathW) srcPathW destPathW
    "data".toList ioctlFailWorld 95 (by decide) (by decide) (by decide) (by decide)
    (by decide) (by decide)
  exact ⟨⟨by decide, h1.1, h1.2⟩, ⟨by decide, h2.1, h2.2⟩, ⟨by decide, h3⟩⟩

/-- C9 witness: a full failing clone call at a concrete world leaves no open
descriptor behind. -/
theorem ficlone_closes_all_fds_witness :
    ioctlFailWorld.openFds = [] ∧
    (linux_ficlone (.str srcPathW) (.str destPathW) ioctlFailWorld).world.openFds = [] :=
  ⟨by decide,
   ficlone_closes_all_fds (.str srcPathW) (.str destPathW) ioctlFailWorld (by decide)⟩

/-- C1 witness: the ioctl-failure cleanup at a concrete world. -/
theorem ficlone_failure_unlinks_dest_witness :
    (ioctlFailWorld.openSrcErr = none ∧
     ioctlFailWorld.fs.lookup srcPathW = some "data".toList ∧
     ioctlFailWorld.openDestErr = none ∧
     ioctlFailWorld.ioctlErr = some 95 ∧
     ioctlFailWorld.unlinkErr = none) ∧
    (linux_ficlone (.str srcPathW) (.str destPathW) ioctlFailWorld).ret =
      .thrown (throw_errno_error "ioctl FICLONE".toList 95) ∧
    (linux_ficlone (.str srcPathW) (.str destPathW) ioctlFailWorld).events =
      [.openRead srcPathW, .openWrite destPathW true true DEFAULT_FILE_MODE,
       .ioctlFiclone (ioctlFailWorld.nextFd + 1) ioctlFailWorld.nextFd,
       .closeFd ioctlFailWorld.nextFd, .closeFd (ioctlFailWorld.nextFd + 1),
       .unlinkPath destPathW] ∧
    (linux_ficlone (.str srcPathW) (.str destPathW) ioctlFailWorld).world.fs.lookup
      destPathW = none := by
  have hw := ficlone_failure_unlinks_dest (.str srcPathW) (.str destPathW) srcPathW
    destPathW "data".toList ioctlFailWorld 95 (by decide) (by decide) (by decide)
    (by decide) (by decide) (by decide) (by decide)
  exact ⟨⟨by decide, by decide, by decide, by decide, by decide⟩, hw.1, hw.2.1, hw.2.2⟩

/-- C10 witness: the pre-existing-destination behaviour of both variants at
concrete worlds. -/
theorem preexisting_dest_failure_platforms_witness :
    (ioctlFailWorld.fs.lookup destPathW = some "old".toList ∧
     Event.openWrite destPathW true true DEFAULT_FILE_MODE ∈
       (linux_ficlone (.str srcPathW) (.str destPathW) ioctlFailWorld).events ∧
     (linux_ficlone (.str srcPathW) (.str destPathW) ioctlFailWorld).world.fs.lookup
       destPathW = none) ∧
    (preexistDarwinWorld.fs.lookup destPathW = some "old".toList ∧
     (darwin_clonefile (.str srcPathW) (.str destPathW) preexistDarwinWorld).ret =
       .thrown (throw_errno_error "clonefile".toList EEXIST) ∧
     (darwin_clonefile (.str srcPathW) (.str destPathW) preexistDarwinWorld).world.fs =
       preexistDarwinWorld.fs ∧
     (darwin_clonefile (.str srcPathW) (.str destPathW) preexistDarwinWorld).world.fs.lookup
       destPathW = some "old".toList) := by
  have hl := preexisting_dest_failure_platforms.1 (.str srcPathW) (.str destPathW)
    srcPathW destPathW "data".toList "old".toList ioctlFailWorld 95
    (by decide) (by decide) (by decide) (by decide) (by decide) (by decide)
    (by decide) (by decide)
  have hdw := preexisting_dest_failure_platforms.2 (.str srcPathW) (.str destPathW)
    srcPathW destPathW "data".toList "old".toList preexistDarwinWorld
    (by decide) (by decide) (by decide) (by decide)
  exact ⟨⟨by decide, hl.1, hl.2⟩, ⟨by decide, hdw.1, hdw.2.1, hdw.2.2⟩⟩
